import Mathlib

/-!
Verification of the tier-resolution, feature-gating and subscription-cleanup
SQL functions in supabase/migrations/20251003085452_odd_star.sql, of the
counter-maintenance triggers in the same migration, and of the resume-analysis
flow handleAnalyze in src/pages/Dashboard.tsx.

The migration file is a single SQL script executed top to bottom.  It contains
two CREATE OR REPLACE FUNCTION definitions for get_user_tier (lines 741-765 and
1518-1532), for user_has_feature_access (lines 768-821 and 1535-1562) and for
cleanup_expired_subscriptions (lines 210-241 and 848-862).  Since CREATE OR
REPLACE replaces the earlier body, the definition appearing last in the file is
the effective one; it is embedded here under the source name, and the earlier,
superseded definition is embedded with a V1 suffix.

Timestamps are modelled as integers (now is a parameter), SQL rows as
structures, tables as lists in row order.  A plpgsql SELECT INTO without ORDER
BY takes the first matching row in that order.  SQL three-valued logic matters
in one place: a NULL end_date fails both end_date > now() and end_date < now(),
which the Option Int model reproduces explicitly.
-/

/-- A row of public.users.  Columns not consulted by any verified function
(email, name, preferences, timestamps) are omitted.  The role column is NOT
NULL with default value free. -/
structure SqlUser where
  id : String
  role : String
deriving DecidableEq, Repr

/-- A row of public.subscription_plans.  Columns not consulted by the verified
functions (price, currency, description, features) are omitted. -/
structure SubscriptionPlan where
  id : String
  name : String
  tier_level : Int
  is_active : Bool
deriving DecidableEq, Repr

/-- A row of public.subscriptions.  The end_date column is nullable. -/
structure Subscription where
  user_id : String
  plan_id : String
  status : String
  start_date : Int
  end_date : Option Int
deriving DecidableEq, Repr

/-- The tables consulted by the tier and feature functions. -/
structure Db where
  users : List SqlUser
  plans : List SubscriptionPlan
  subscriptions : List Subscription
deriving DecidableEq, Repr

/-- The join condition of the effective get_user_tier (migration lines
1518-1532): s.status = active AND s.end_date > now().  A NULL end_date fails
the comparison under SQL three-valued logic. -/
def subQualifiesV2 (now : Int) (uid : String) (s : Subscription) : Bool :=
  s.user_id = uid && s.status = "active" &&
    (match s.end_date with
     | none => false
     | some t => now < t)

/-- The subscription condition of the superseded first get_user_tier
(migration lines 741-765): s.status = active AND (s.end_date IS NULL OR
s.end_date > now()). -/
def subQualifiesV1 (now : Int) (uid : String) (s : Subscription) : Bool :=
  s.user_id = uid && s.status = "active" &&
    (match s.end_date with
     | none => true
     | some t => now < t)

/-- Effective get_user_tier (last definition in the migration, lines
1518-1532): SELECT COALESCE(sp.name, free) from users LEFT JOIN subscriptions
on the V2 condition LEFT JOIN subscription_plans, for the first matching row;
COALESCE to free when the user row is missing, when no subscription qualifies,
or when the plan row of the qualifying subscription is missing.  The user role
column is never consulted. -/
def get_user_tier (db : Db) (now : Int) (uid : String) : String :=
  match db.users.find? (fun u => u.id = uid) with
  | none => "free"
  | some _ =>
    match db.subscriptions.find? (subQualifiesV2 now uid) with
    | none => "free"
    | some s =>
      match db.plans.find? (fun p => p.id = s.plan_id) with
      | none => "free"
      | some p => p.name

/-- The qualifying (subscription, plan) pairs of the superseded first
get_user_tier: subscriptions JOIN subscription_plans (inner join) filtered by
the V1 condition, in table order. -/
def activePlanPairsV1 (db : Db) (now : Int) (uid : String) :
    List (Subscription × SubscriptionPlan) :=
  db.subscriptions.filterMap (fun s =>
    if subQualifiesV1 now uid s then
      (db.plans.find? (fun p => p.id = s.plan_id)).map (fun p => (s, p))
    else none)

/-- ORDER BY sp.tier_level DESC LIMIT 1: the first pair of maximal tier_level
in row order (a later pair replaces the current best only when strictly
greater). -/
def bestByTier : List (Subscription × SubscriptionPlan) →
    Option (Subscription × SubscriptionPlan)
  | [] => none
  | x :: xs =>
    match bestByTier xs with
    | none => some x
    | some y => if x.2.tier_level < y.2.tier_level then some y else some x

/-- Superseded first get_user_tier (migration lines 741-765): the plan name of
the highest-ranked active subscription whose end date is NULL or in the
future; else the user role; else free. -/
def get_user_tierV1 (db : Db) (now : Int) (uid : String) : String :=
  match bestByTier (activePlanPairsV1 db now uid) with
  | some xp => xp.2.name
  | none =>
    match db.users.find? (fun u => u.id = uid) with
    | some u => u.role
    | none => "free"

/-- Modelled from the spec, section 4.2: the resolveTier algorithm as the spec
states it.  Find the subscription with status active and (no end date, or end
date in the future) with the highest plan rank and return its plan name; if
none exists fall back to the static role attribute of the user; if the user
record is absent default to the lowest tier free.  Ties on rank keep the
earliest row, matching the unspecified tie-break of the spec. -/
def specResolveTier (db : Db) (now : Int) (uid : String) : String :=
  let qualifying := db.subscriptions.filterMap (fun s =>
    if s.user_id = uid && s.status = "active" &&
        (s.end_date = none ||
          (match s.end_date with
           | none => false
           | some t => now < t)) then
      (db.plans.find? (fun p => p.id = s.plan_id)).map (fun p => (s, p))
    else none)
  match bestByTier qualifying with
  | some xp => xp.2.name
  | none =>
    match db.users.find? (fun u => u.id = uid) with
    | some u => u.role
    | none => "free"

/-- The EXISTS check of the effective user_has_feature_access: a users row
with the given id and role admin. -/
def isAdminUser (db : Db) (uid : String) : Bool :=
  db.users.any (fun u => u.id = uid && u.role = "admin")

/-- The four feature names excluded from the pro tier in the effective
user_has_feature_access (migration lines 1535-1562). -/
def proBlocked : List String :=
  ["team_collaboration", "ai_drafting", "analytics_dashboard", "white_label"]

/-- The three feature names granted to the free tier in the effective
user_has_feature_access. -/
def freeAllowed : List String :=
  ["basic_chat", "document_upload", "basic_search"]

/-- Effective user_has_feature_access (last definition in the migration, lines
1535-1562): resolve the tier via the effective get_user_tier; admins get
unconditional access; otherwise a CASE on the tier string grants everything to
enterprise, everything outside proBlocked to pro, only freeAllowed to free,
and nothing to any other tier string (note that seeded plan names are
capitalised Free, Pro, Enterprise, so a tier resolved from a plan matches no
branch of the lowercase CASE). -/
def user_has_feature_access (db : Db) (now : Int) (uid : String)
    (feature : String) : Bool :=
  let user_tier := get_user_tier db now uid
  if isAdminUser db uid then true
  else if user_tier = "enterprise" then true
  else if user_tier = "pro" then !(proBlocked.contains feature)
  else if user_tier = "free" then freeAllowed.contains feature
  else false

/-- The static feature-requirement CASE table of the superseded first
user_has_feature_access (migration lines 795-812): pro features need level 1,
enterprise features level 2, every other name defaults to level 0. -/
def requiredTierLevel (feature : String) : Int :=
  if feature = "internet_search" then 1
  else if feature = "citation_generator" then 1
  else if feature = "case_summarizer" then 1
  else if feature = "case_brief_generator" then 1
  else if feature = "compare_cases" then 1
  else if feature = "statute_navigator" then 1
  else if feature = "export_collaboration" then 1
  else if feature = "precedent_finder" then 2
  else if feature = "statute_evolution" then 2
  else if feature = "team_collaboration" then 2
  else if feature = "ai_drafting" then 2
  else if feature = "offline_mode" then 2
  else if feature = "voice_to_law" then 2
  else if feature = "firm_analytics" then 2
  else if feature = "white_label" then 2
  else 0

/-- The CASE mapping of a role string to a level in the superseded first
user_has_feature_access: admin 999, enterprise 2, pro 1, else 0. -/
def roleLevel (role : String) : Int :=
  if role = "admin" then 999
  else if role = "enterprise" then 2
  else if role = "pro" then 1
  else 0

/-- The tier_level values of the qualifying joined rows in the first query of
the superseded user_has_feature_access (a LEFT-joined row whose plan is
missing contributes a NULL level, discarded by NULLS LAST). -/
def tierLevelsV1 (db : Db) (now : Int) (uid : String) : List Int :=
  (activePlanPairsV1 db now uid).map (fun xp => xp.2.tier_level)

/-- ORDER BY tier_level DESC NULLS LAST LIMIT 1 over the non-null levels. -/
def maxLevel : List Int → Option Int
  | [] => none
  | x :: xs =>
    match maxLevel xs with
    | none => some x
    | some y => some (max x y)

/-- The user_tier_level variable of the superseded first
user_has_feature_access: maximal tier_level among active unexpired
subscriptions of the user; only when that is NULL fall back to the role CASE
(so the admin branch is reached only for users with no qualifying
subscription); default level 0. -/
def userTierLevelV1 (db : Db) (now : Int) (uid : String) : Int :=
  match (match db.users.find? (fun u => u.id = uid) with
         | none => none
         | some _ => maxLevel (tierLevelsV1 db now uid)) with
  | some l => l
  | none =>
    match db.users.find? (fun u => u.id = uid) with
    | some u => roleLevel u.role
    | none => 0

/-- Superseded first user_has_feature_access (migration lines 768-821):
user_tier_level >= required_tier_level. -/
def user_has_feature_accessV1 (db : Db) (now : Int) (uid : String)
    (feature : String) : Bool :=
  decide (requiredTierLevel feature ≤ userTierLevelV1 db now uid)

/-- The assign_free_subscription trigger body (migration lines 183-207), fired
after a users insert: look up the active plan named Free and insert an active
subscription with start_date now and no end date. -/
def assign_free_subscription (db : Db) (newUserId : String) (now : Int) : Db :=
  match db.plans.find? (fun p => p.name = "Free" && p.is_active) with
  | none => db
  | some p =>
    { db with subscriptions := db.subscriptions ++
        [{ user_id := newUserId, plan_id := p.id, status := "active",
           start_date := now, end_date := none }] }

/-- The row update of the effective cleanup_expired_subscriptions (migration
lines 848-862): an active subscription with a non-null past end date becomes
expired; every other row is untouched. -/
def expireSub (now : Int) (s : Subscription) : Subscription :=
  if s.status = "active" &&
      (match s.end_date with
       | none => false
       | some t => t < now) then
    { s with status := "expired" }
  else s

/-- Effective cleanup_expired_subscriptions (last definition in the migration,
lines 848-862): the single UPDATE above, applied to every subscription row.
No users row is touched: the role demotion exists only in the superseded first
definition. -/
def cleanup_expired_subscriptions (db : Db) (now : Int) : Db :=
  { db with subscriptions := db.subscriptions.map (expireSub now) }

/-- The NOT EXISTS subquery of the superseded first cleanup (an active
subscription of the user with end_date > now(); a NULL end_date fails the
comparison). -/
def hasOtherActiveFuture (subs : List Subscription) (now : Int)
    (uid : String) : Bool :=
  subs.any (fun s2 => s2.user_id = uid && s2.status = "active" &&
    (match s2.end_date with
     | none => false
     | some t => now < t))

/-- Superseded first cleanup_expired_subscriptions (migration lines 210-241):
mark expired as above, then set role to free for every user holding an expired
subscription on a plan named Pro or Enterprise with no other covering active
subscription. -/
def cleanup_expired_subscriptionsV1 (db : Db) (now : Int) : Db :=
  let subs1 := db.subscriptions.map (expireSub now)
  let demote := fun (u : SqlUser) =>
    if (subs1.any (fun s => s.user_id = u.id && s.status = "expired" &&
          (match db.plans.find? (fun p => p.id = s.plan_id) with
           | some p => p.name = "Pro" || p.name = "Enterprise"
           | none => false)))
        && !(hasOtherActiveFuture subs1 now u.id) then
      { u with role := "free" }
    else u
  { db with users := db.users.map demote, subscriptions := subs1 }

/-!
Counter-maintenance triggers.  update_chat_session_stats is defined twice in
the migration (lines 868-892 and 1489-1515) with the same semantics: message
insert adds one to message_count of the owning session and stamps
last_message_at, message delete subtracts one clamped at zero with GREATEST.
update_document_chunk_count (lines 895-918) does the same for total_chunks of
the owning document.
-/

/-- A row of public.chat_sessions, restricted to the columns the trigger
updates. -/
structure ChatSession where
  id : String
  message_count : Int
  last_message_at : Option Int
  updated_at : Int
deriving DecidableEq, Repr

/-- A row of public.documents, restricted to the columns the trigger
updates. -/
structure DocumentRow where
  id : String
  total_chunks : Int
  updated_at : Int
deriving DecidableEq, Repr

/-- A messages-table operation observed by the AFTER INSERT OR DELETE trigger:
the session_id and created_at of the NEW row, or the session_id of the OLD
row. -/
inductive MessageOp where
  | ins (session_id : String) (created_at : Int)
  | del (session_id : String)
deriving DecidableEq, Repr

/-- A document_chunks-table operation observed by the chunk-count trigger. -/
inductive ChunkOp where
  | ins (document_id : String)
  | del (document_id : String)
deriving DecidableEq, Repr

/-- The update_chat_session_stats trigger body: on insert, message_count + 1
and last_message_at := NEW.created_at on the owning session; on delete,
GREATEST(0, message_count - 1); updated_at := now() in both cases. -/
def update_chat_session_stats (now : Int) (sessions : List ChatSession) :
    MessageOp → List ChatSession
  | .ins sid t => sessions.map (fun c =>
      if c.id = sid then
        { c with message_count := c.message_count + 1,
                 last_message_at := some t, updated_at := now }
      else c)
  | .del sid => sessions.map (fun c =>
      if c.id = sid then
        { c with message_count := max 0 (c.message_count - 1),
                 updated_at := now }
      else c)

/-- The update_document_chunk_count trigger body: total_chunks + 1 on insert,
GREATEST(0, total_chunks - 1) on delete, on the owning document. -/
def update_document_chunk_count (now : Int) (docs : List DocumentRow) :
    ChunkOp → List DocumentRow
  | .ins did => docs.map (fun d =>
      if d.id = did then
        { d with total_chunks := d.total_chunks + 1, updated_at := now }
      else d)
  | .del did => docs.map (fun d =>
      if d.id = did then
        { d with total_chunks := max 0 (d.total_chunks - 1), updated_at := now }
      else d)

/-- A sequence of message operations, each firing the trigger. -/
def runMessageOps (now : Int) (sessions : List ChatSession)
    (ops : List MessageOp) : List ChatSession :=
  ops.foldl (update_chat_session_stats now) sessions

/-- A sequence of chunk operations, each firing the trigger. -/
def runChunkOps (now : Int) (docs : List DocumentRow)
    (ops : List ChunkOp) : List DocumentRow :=
  ops.foldl (update_document_chunk_count now) docs

/-!
The resume-analysis flow of src/pages/Dashboard.tsx.  The component state
fields read or written by handleAnalyze are collected in DashState; the
supabase single() reply is a data/error pair; the external analysis provider
(analyzeResume in src/lib/openai, absent from the provided source) is an
oracle parameter returning either a result or a thrown error message.
-/

/-- An entry of the job_keywords_detected list: status is the string Present
or Missing. -/
structure KeywordDetection where
  keyword : String
  status : String
deriving DecidableEq, Repr

/-- Modelled from the spec: the AnalysisResult interface of src/lib/openai is
not in the provided source; section 6 lists its fields match_summary,
match_score (a string of the form N/100), job_keywords_detected and
gaps_and_suggestions.  The optional per-type premium sub-reports are omitted:
no settled claim depends on them. -/
structure AnalysisResult where
  match_summary : String
  match_score : String
  job_keywords_detected : List KeywordDetection
  gaps_and_suggestions : List String
deriving DecidableEq, Repr

/-- A row of the resume_analyses table, as selected and inserted by
handleAnalyze. -/
structure ResumeAnalysisRow where
  user_id : String
  compatibility_score : Nat
  keyword_matches : List String
  experience_gaps : List String
  skill_gaps : List String
  resume_hash : String
  job_description_hash : String
  analysis_details : Option AnalysisResult
deriving DecidableEq, Repr

/-- The error object of a supabase reply. -/
structure QueryFailure where
  code : String
deriving DecidableEq, Repr

/-- The data/error pair returned by the single() cache lookup.  single()
reports a missing row as the error code PGRST116 with null data. -/
structure LookupReply where
  data : Option ResumeAnalysisRow
  error : Option QueryFailure
deriving DecidableEq, Repr

/-- Modelled from the spec: generateSHA256Hash of src/lib/utils is not in the
provided source; section 3 requires the fingerprint to be a deterministic,
collision-resistant pure function of the text content alone.  It is modelled
as the dash-separated decimal character codes of the text, a deterministic and
collision-free digest. -/
def generateSHA256Hash (s : String) : String :=
  String.intercalate "-" (s.data.map (fun c => toString c.toNat))

/-- An entry of the static analysisOptions table of Dashboard.tsx. -/
structure AnalysisOption where
  id : String
  label : String
  description : String
  isPremium : Bool
  isCore : Bool
deriving DecidableEq, Repr

/-- The analysisOptions table (Dashboard.tsx lines 101-144). -/
def analysisOptions : List AnalysisOption :=
  [{ id := "job_match_analysis", label := "Job Match Analysis",
     description := "Core compatibility scoring and keyword matching",
     isPremium := false, isCore := true },
   { id := "ats_compatibility", label := "ATS Compatibility Check",
     description := "Check if your resume passes automated screening",
     isPremium := false, isCore := false },
   { id := "impact_statement_review", label := "Impact Statement Review",
     description := "Identify weak accomplishments and achievements",
     isPremium := false, isCore := false },
   { id := "skills_gap_assessment", label := "Skills Gap Assessment",
     description := "Compare your skills to job requirements",
     isPremium := true, isCore := false },
   { id := "format_optimization", label := "Format Optimization",
     description := "Review resume formatting and structure",
     isPremium := true, isCore := false },
   { id := "career_story_flow", label := "Career Story Flow Analysis",
     description := "Analyze career progression narrative",
     isPremium := true, isCore := false }]

/-- The premium test of the filter in handleAnalyze: look the type up in
analysisOptions and read isPremium, false when the type is unknown (matching
the optional-chaining expression in the source, where an unknown id yields
undefined and is kept by the filter). -/
def isPremiumType (t : String) : Bool :=
  ((analysisOptions.find? (fun o => o.id = t)).map (fun o => o.isPremium)).getD
    false

/-- The list of analysis types handed to analyzeResume on the fresh path:
selected types that are not premium, with job_match_analysis itself removed
from the argument list (Dashboard.tsx lines 241-249). -/
def passedTypes (selected : List String) : List String :=
  (selected.filter (fun t => !(isPremiumType t))).filter
    (fun t => t ≠ "job_match_analysis")

/-- The JavaScript String.prototype.trim of the validation checks: strip
leading and trailing whitespace.  Implemented structurally over the character
list so that concrete instances reduce inside the kernel. -/
def jsTrim (s : String) : String :=
  String.mk
    (((s.data.dropWhile Char.isWhitespace).reverse.dropWhile
      Char.isWhitespace).reverse)

/-- The component state fields read and written by handleAnalyze. -/
structure DashState where
  currentStep : Nat
  resumeText : String
  jobDescription : String
  selectedAnalysisTypes : List String
  analysisResult : Option AnalysisResult
  usedCachedResult : Bool
deriving DecidableEq, Repr

/-- The observable outcome of one handleAnalyze call: the new component state,
the error banner, and which effects ran (hash computation, cache lookup,
provider invocation with its type-list argument, attempted insert row). -/
structure AnalyzeOutcome where
  state : DashState
  errorMsg : Option String
  hashesComputed : Bool
  lookupPerformed : Bool
  providerCalled : Bool
  providerTypes : Option (List String)
  insertedRow : Option ResumeAnalysisRow
deriving DecidableEq, Repr

/-- The first run of decimal digits of a string, as matched by the regular
expression over digits in getNumericScore. -/
def digitRun : List Char → Option (List Char)
  | [] => none
  | c :: cs =>
    if c.isDigit then some (c :: cs.takeWhile Char.isDigit)
    else digitRun cs

/-- Decimal value of a digit run, as parseInt reads it. -/
def digitsToNat (ds : List Char) : Nat :=
  ds.foldl (fun n c => n * 10 + (c.toNat - 48)) 0

/-- getNumericScore of Dashboard.tsx: the first digit run of match_score, 0
when there is none. -/
def getNumericScore (matchScore : String) : Nat :=
  match digitRun matchScore.data with
  | some ds => digitsToNat ds
  | none => 0

/-- The cached result served on a hit: the stored analysis_details when
non-null, else the fallback object rebuilt from the denormalised columns
(Dashboard.tsx lines 213-228). -/
def cachedResultOf (row : ResumeAnalysisRow) : AnalysisResult :=
  match row.analysis_details with
  | some r => r
  | none =>
    { match_summary := "This analysis was retrieved from your previous submission with the same resume and job description.",
      match_score := toString row.compatibility_score ++ "/100",
      job_keywords_detected := row.keyword_matches.map
        (fun k => { keyword := k, status := "Present" }),
      gaps_and_suggestions := row.experience_gaps }

/-- The fresh-invocation tail of handleAnalyze: filter the selected types,
call the provider, and on success store the result, attempt the insert when a
job description was needed (the insert error result is never examined), and
advance to step 4; a thrown provider error lands in the catch block, which
only sets the error banner. -/
def freshAnalyze (st1 : DashState) (uid : String) (needsJD : Bool)
    (hashed : Bool)
    (provider : String → String → List String → Except String AnalysisResult) :
    AnalyzeOutcome :=
  match provider st1.resumeText (if needsJD then st1.jobDescription else "")
      (passedTypes st1.selectedAnalysisTypes) with
  | .error m =>
    { state := st1, errorMsg := some m, hashesComputed := hashed,
      lookupPerformed := hashed, providerCalled := true,
      providerTypes := some (passedTypes st1.selectedAnalysisTypes),
      insertedRow := none }
  | .ok r =>
    { state := { st1 with analysisResult := some r, currentStep := 4 },
      errorMsg := none, hashesComputed := hashed, lookupPerformed := hashed,
      providerCalled := true,
      providerTypes := some (passedTypes st1.selectedAnalysisTypes),
      insertedRow :=
        if needsJD then
          some { user_id := uid,
                 compatibility_score := getNumericScore r.match_score,
                 keyword_matches := (r.job_keywords_detected.filter
                   (fun k => k.status = "Present")).map (fun k => k.keyword),
                 experience_gaps := r.gaps_and_suggestions,
                 skill_gaps := [],
                 resume_hash := generateSHA256Hash st1.resumeText,
                 job_description_hash := generateSHA256Hash st1.jobDescription,
                 analysis_details := some r }
        else none }

/-- handleAnalyze of Dashboard.tsx (lines 182-270), as a function of the
component state, the signed-in user, the cache-lookup reply and the provider
oracle.  Validation errors return before any effect; when job_match_analysis
is selected the hashes are computed and the cache consulted, and a reply with
no error and a row short-circuits to the cached result; every other reply
(including a reply whose error is not the not-found code) falls through to the
fresh invocation. -/
def handleAnalyze (st : DashState) (user : Option String)
    (reply : LookupReply)
    (provider : String → String → List String → Except String AnalysisResult) :
    AnalyzeOutcome :=
  if jsTrim st.resumeText = "" then
    { state := st, errorMsg := some "Please provide your resume text.",
      hashesComputed := false, lookupPerformed := false,
      providerCalled := false, providerTypes := none, insertedRow := none }
  else
    let needsJD := st.selectedAnalysisTypes.contains "job_match_analysis"
    if needsJD && jsTrim st.jobDescription = "" then
      { state := st,
        errorMsg := some "Please provide the job description for job match analysis.",
        hashesComputed := false, lookupPerformed := false,
        providerCalled := false, providerTypes := none, insertedRow := none }
    else
      match user with
      | none =>
        { state := st, errorMsg := some "Please sign in to analyze your resume.",
          hashesComputed := false, lookupPerformed := false,
          providerCalled := false, providerTypes := none, insertedRow := none }
      | some uid =>
        let st1 := { st with usedCachedResult := false }
        if needsJD then
          match reply.error, reply.data with
          | none, some row =>
            let st2 := { st1 with analysisResult := some (cachedResultOf row),
                                  usedCachedResult := true, currentStep := 4 }
            { state := st2, errorMsg := none, hashesComputed := true,
              lookupPerformed := true, providerCalled := false,
              providerTypes := none, insertedRow := none }
          | _, _ => freshAnalyze st1 uid true true provider
        else freshAnalyze st1 uid false false provider

/-- The cache lookup against a table of rows: the first row matching the
user id and both fingerprints; single() turns an empty result into the
not-found error code PGRST116. -/
def lookupFromDb (rows : List ResumeAnalysisRow) (uid rh jh : String) :
    LookupReply :=
  match rows.find? (fun row => row.user_id = uid && row.resume_hash = rh &&
      row.job_description_hash = jh) with
  | some row => { data := some row, error := none }
  | none => { data := none, error := some { code := "PGRST116" } }

/-- One handleAnalyze call run against a concrete resume_analyses table:
build the reply from the table (only when the lookup actually runs), execute
the call, and apply the attempted insert to the table unless the insert fails
(the call itself never observes the insert outcome). -/
def runAnalyze (rows : List ResumeAnalysisRow) (st : DashState)
    (user : Option String)
    (provider : String → String → List String → Except String AnalysisResult)
    (insertFails : Bool) : AnalyzeOutcome × List ResumeAnalysisRow :=
  let reply :=
    match user with
    | some uid =>
      if st.selectedAnalysisTypes.contains "job_match_analysis" then
        lookupFromDb rows uid (generateSHA256Hash st.resumeText)
          (generateSHA256Hash st.jobDescription)
      else { data := none, error := none }
    | none => { data := none, error := none }
  let o := handleAnalyze st user reply provider
  match o.insertedRow with
  | some row => if insertFails then (o, rows) else (o, rows ++ [row])
  | none => (o, rows)

/-!
Helper lemmas.
-/

lemma specCond_eq_subQualifiesV1 (now : Int) (uid : String) (s : Subscription) :
    (s.user_id = uid && s.status = "active" &&
      (s.end_date = none ||
        (match s.end_date with
         | none => false
         | some t => now < t))) = subQualifiesV1 now uid s := by
  unfold subQualifiesV1
  cases s.end_date <;> simp

lemma specPairs_eq (db : Db) (now : Int) (uid : String) :
    (db.subscriptions.filterMap (fun s =>
      if s.user_id = uid && s.status = "active" &&
          (s.end_date = none ||
            (match s.end_date with
             | none => false
             | some t => now < t)) then
        (db.plans.find? (fun p => p.id = s.plan_id)).map (fun p => (s, p))
      else none)) = activePlanPairsV1 db now uid := by
  unfold activePlanPairsV1
  congr 1
  funext s
  rw [specCond_eq_subQualifiesV1]

/-- C1: for every user id, tier resolution returns the plan name of the
highest-ranked subscription with status active and no end date or a future end
date, else the static role, else free.  This claim holds of the superseded
first definition of get_user_tier and fails on the effective one; the theorem
records both halves of the amended claim: the first definition coincides with
the spec algorithm on every database, and the effective definition answers
free whenever the user has no active subscription with a strictly-future end
date, never consulting the role column. -/
theorem C1_tier_resolution : ∀ (db : Db) (now : Int) (uid : String),
    get_user_tierV1 db now uid = specResolveTier db now uid ∧
    ((∀ s ∈ db.subscriptions, subQualifiesV2 now uid s = false) →
      get_user_tier db now uid = "free") := by
  intro db now uid
  constructor
  · unfold get_user_tierV1 specResolveTier
    rw [specPairs_eq]
  · intro h
    unfold get_user_tier
    cases hu : db.users.find? (fun u => u.id = uid) with
    | none => rfl
    | some u =>
      have hn : db.subscriptions.find? (subQualifiesV2 now uid) = none := by
        rw [List.find?_eq_none]
        intro s hs
        simp [h s hs]
      rw [hn]

/-- A user whose role is pro but who holds no subscription at all. -/
def c1BadDb : Db :=
  { users := [{ id := "u1", role := "pro" }], plans := [], subscriptions := [] }

/-- C1 counterexample: on a user with role pro and no subscription the spec
algorithm answers pro (the role fallback) while the effective get_user_tier
answers free, so the claim is false of the function the migration leaves in
place. -/
theorem C1_counterexample :
    specResolveTier c1BadDb 0 "u1" = "pro" ∧
    get_user_tier c1BadDb 0 "u1" = "free" ∧
    get_user_tier c1BadDb 0 "u1" ≠ specResolveTier c1BadDb 0 "u1" := by
  decide

/-- A pro-role user whose only subscription is active with no end date: not
qualifying for the effective get_user_tier. -/
def c1WitnessDb : Db :=
  { users := [{ id := "u1", role := "pro" }],
    plans := [{ id := "plan-free", name := "Free", tier_level := 0,
                is_active := true }],
    subscriptions := [{ user_id := "u1", plan_id := "plan-free",
                        status := "active", start_date := 0,
                        end_date := none }] }

/-- Witness for C1_tier_resolution at a concrete database. -/
theorem C1_tier_resolution_witness :
    get_user_tierV1 c1WitnessDb 5 "u1" = specResolveTier c1WitnessDb 5 "u1" ∧
    get_user_tier c1WitnessDb 5 "u1" = "free" :=
  ⟨(C1_tier_resolution c1WitnessDb 5 "u1").1,
   (C1_tier_resolution c1WitnessDb 5 "u1").2 (by decide)⟩

/-- C2: for every user whose role is admin and every feature name, the
effective user_has_feature_access returns true, whatever subscriptions the
administrator holds: the admin EXISTS check fires before any tier branch. -/
theorem C2_admin_access : ∀ (db : Db) (now : Int) (uid feature : String),
    isAdminUser db uid = true →
    user_has_feature_access db now uid feature = true := by
  intro db now uid feature h
  simp [user_has_feature_access, h]

/-- The three seeded subscription plans (migration lines 924-936). -/
def seedPlans : List SubscriptionPlan :=
  [{ id := "plan-free", name := "Free", tier_level := 0, is_active := true },
   { id := "plan-pro", name := "Pro", tier_level := 1, is_active := true },
   { id := "plan-ent", name := "Enterprise", tier_level := 2,
     is_active := true }]

/-- An admin signed up through the trigger, so holding the automatic active
Free-tier subscription. -/
def c2AdminDb : Db :=
  assign_free_subscription
    { users := [{ id := "adm", role := "admin" }], plans := seedPlans,
      subscriptions := [] }
    "adm" 0

/-- Witness for C2_admin_access: the signup trigger gave the admin an active
Free subscription, and access to a Pro-gated feature is still granted. -/
theorem C2_admin_access_witness :
    (c2AdminDb.subscriptions.any
      (fun s => s.user_id = "adm" && s.status = "active")) = true ∧
    user_has_feature_access c2AdminDb 5 "adm" "internet_search" = true :=
  ⟨by decide, C2_admin_access c2AdminDb 5 "adm" "internet_search" (by decide)⟩

lemma roleLevel_nonneg (r : String) : 0 ≤ roleLevel r := by
  unfold roleLevel
  repeat' split
  all_goals decide

lemma mem_tierLevelsV1 (db : Db) (now : Int) (uid : String) (x : Int)
    (hx : x ∈ tierLevelsV1 db now uid) : ∃ p ∈ db.plans, p.tier_level = x := by
  unfold tierLevelsV1 activePlanPairsV1 at hx
  simp only [List.mem_map, List.mem_filterMap] at hx
  obtain ⟨xp, ⟨s, _, hf⟩, hlevel⟩ := hx
  by_cases hq : subQualifiesV1 now uid s
  · rw [if_pos hq] at hf
    rw [Option.map_eq_some'] at hf
    obtain ⟨p, hp, hpair⟩ := hf
    refine ⟨p, List.mem_of_find?_eq_some hp, ?_⟩
    rw [← hlevel, ← hpair]
  · rw [if_neg hq] at hf
    exact absurd hf (Option.noConfusion)

lemma maxLevel_nonneg : ∀ (xs : List Int), (∀ x ∈ xs, 0 ≤ x) →
    ∀ l, maxLevel xs = some l → 0 ≤ l := by
  intro xs
  induction xs with
  | nil =>
    intro _ l hl
    exact absurd hl (by simp [maxLevel])
  | cons x xs ih =>
    intro h l hl
    unfold maxLevel at hl
    cases hm : maxLevel xs with
    | none =>
      rw [hm] at hl
      simp only [Option.some.injEq] at hl
      rw [← hl]
      exact h x (List.mem_cons_self x xs)
    | some y =>
      rw [hm] at hl
      simp only [Option.some.injEq] at hl
      rw [← hl]
      have hx : 0 ≤ x := h x (List.mem_cons_self x xs)
      exact le_max_of_le_left hx

lemma userTierLevelV1_nonneg (db : Db) (now : Int) (uid : String)
    (hp : ∀ p ∈ db.plans, 0 ≤ p.tier_level) :
    0 ≤ userTierLevelV1 db now uid := by
  unfold userTierLevelV1
  cases hu : db.users.find? (fun u => u.id = uid) with
  | none => simp
  | some u =>
    cases hm : maxLevel (tierLevelsV1 db now uid) with
    | none => simp [roleLevel_nonneg]
    | some l =>
      simp only []
      exact maxLevel_nonneg _ (fun x hx => by
        obtain ⟨p, hpmem, hpl⟩ := mem_tierLevelsV1 db now uid x hx
        rw [← hpl]
        exact hp p hpmem) l hm

/-- C5: the claim says every unknown feature name is available to everyone
because the static table defaults the requirement to rank 0.  That holds only
of the superseded first user_has_feature_access; the effective one whitelists
by tier string and denies a free-tier user any unlisted name.  Amended:
under the effective function a non-admin user resolving to tier free is
denied every feature outside freeAllowed (unknown names included), while the
superseded rank-based function does grant every user any name whose required
rank is the default 0 when all plan ranks are non-negative. -/
theorem C5_unknown_features : ∀ (db : Db) (now : Int) (uid feature : String),
    (isAdminUser db uid = false → get_user_tier db now uid = "free" →
      freeAllowed.contains feature = false →
      user_has_feature_access db now uid feature = false) ∧
    ((∀ p ∈ db.plans, 0 ≤ p.tier_level) → requiredTierLevel feature = 0 →
      user_has_feature_accessV1 db now uid feature = true) := by
  intro db now uid feature
  constructor
  · intro hadm htier hf
    simp only [user_has_feature_access, hadm, htier]
    simpa using hf
  · intro hp hreq
    unfold user_has_feature_accessV1
    rw [hreq]
    simp only [decide_eq_true_eq]
    exact userTierLevelV1_nonneg db now uid hp

/-- A free-role user signed up through the trigger, holding only the automatic
active Free subscription. -/
def c5FreeDb : Db :=
  assign_free_subscription
    { users := [{ id := "u1", role := "free" }], plans := seedPlans,
      subscriptions := [] }
    "u1" 0

/-- C5 counterexample: the name export_to_word is absent from the static
requirement table (its required rank defaults to 0), yet the effective
user_has_feature_access denies it to a free user, so the claim is false. -/
theorem C5_counterexample :
    requiredTierLevel "export_to_word" = 0 ∧
    user_has_feature_access c5FreeDb 5 "u1" "export_to_word" = false := by
  decide

/-- Witness for C5_unknown_features: on the same concrete database the
effective function denies the unknown name and the superseded one grants
it. -/
theorem C5_unknown_features_witness :
    user_has_feature_access c5FreeDb 5 "u1" "basic_export" = false ∧
    user_has_feature_accessV1 c5FreeDb 5 "u1" "basic_export" = true :=
  ⟨(C5_unknown_features c5FreeDb 5 "u1" "basic_export").1 (by decide)
     (by decide) (by decide),
   (C5_unknown_features c5FreeDb 5 "u1" "basic_export").2 (by decide)
     (by decide)⟩

lemma expireSub_not_qualifies (now : Int) (uid : String) (s : Subscription)
    (h : subQualifiesV2 now uid s = false) :
    subQualifiesV2 now uid (expireSub now s) = false := by
  unfold expireSub
  split
  · simp [subQualifiesV2]
  · exact h

/-- C8: the claim bundles three statements.  The first holds of the effective
cleanup_expired_subscriptions: after the sweep no subscription is still active
with a past end date.  The second, demotion of the user role, fails: the
effective definition updates no users row at all (demotion exists only in the
superseded first definition).  The third is amended: a tier resolution made
after the sweep returns free, the unconditional fallback of the effective
get_user_tier, whenever the user has no other qualifying subscription; the
role column is not consulted at all. -/
theorem C8_cleanup : ∀ (db : Db) (now : Int),
    (cleanup_expired_subscriptions db now).users = db.users ∧
    (∀ s ∈ (cleanup_expired_subscriptions db now).subscriptions,
      s.status = "active" → ∀ t, s.end_date = some t → ¬ t < now) ∧
    (∀ uid : String,
      (∀ s ∈ db.subscriptions, subQualifiesV2 now uid s = false) →
      get_user_tier (cleanup_expired_subscriptions db now) now uid = "free") := by
  intro db now
  refine ⟨rfl, ?_, ?_⟩
  · intro s hs hact t het
    simp only [cleanup_expired_subscriptions, List.mem_map] at hs
    obtain ⟨s0, _, rfl⟩ := hs
    unfold expireSub at hact het
    by_cases hc : (s0.status = "active" &&
        (match s0.end_date with
         | none => false
         | some t => t < now)) = true
    · rw [if_pos hc] at hact
      simp at hact
    · rw [if_neg hc] at hact het
      rw [hact, het] at hc
      simp at hc
      exact not_lt.mpr hc
  · intro uid h
    unfold get_user_tier
    have husers : (cleanup_expired_subscriptions db now).users = db.users := rfl
    rw [husers]
    cases hu : db.users.find? (fun u => u.id = uid) with
    | none => rfl
    | some u =>
      have hn : (cleanup_expired_subscriptions db now).subscriptions.find?
          (subQualifiesV2 now uid) = none := by
        rw [List.find?_eq_none]
        intro s hs
        simp only [cleanup_expired_subscriptions, List.mem_map] at hs
        obtain ⟨s0, hs0, rfl⟩ := hs
        simp [expireSub_not_qualifies now uid s0 (h s0 hs0)]
      rw [hn]

/-- A pro-role user whose only subscription is an active Pro plan whose end
date has passed. -/
def c8Db : Db :=
  { users := [{ id := "u1", role := "pro" }],
    plans := [{ id := "plan-pro", name := "Pro", tier_level := 1,
                is_active := true }],
    subscriptions := [{ user_id := "u1", plan_id := "plan-pro",
                        status := "active", start_date := 0,
                        end_date := some 10 }] }

/-- C8 counterexample: the effective sweep marks the subscription expired but
leaves the user role at pro, while the claim requires the role to be demoted;
the superseded first definition would have demoted it, so the two cleanups
disagree on this database.  Tier resolution afterwards answers free because
get_user_tier never reads the role, not because the role was demoted. -/
theorem C8_counterexample :
    (cleanup_expired_subscriptions c8Db 100).subscriptions.map
      Subscription.status = ["expired"] ∧
    (cleanup_expired_subscriptions c8Db 100).users.map SqlUser.role = ["pro"] ∧
    (cleanup_expired_subscriptionsV1 c8Db 100).users.map SqlUser.role =
      ["free"] ∧
    cleanup_expired_subscriptions c8Db 100 ≠
      cleanup_expired_subscriptionsV1 c8Db 100 ∧
    get_user_tier (cleanup_expired_subscriptions c8Db 100) 100 "u1" = "free" := by
  decide

/-- Witness for C8_cleanup at the concrete database above. -/
theorem C8_cleanup_witness :
    (cleanup_expired_subscriptions c8Db 100).users = c8Db.users ∧
    get_user_tier (cleanup_expired_subscriptions c8Db 100) 100 "u1" = "free" :=
  ⟨(C8_cleanup c8Db 100).1, (C8_cleanup c8Db 100).2.2 "u1" (by decide)⟩

lemma msg_step_nonneg (now : Int) (sessions : List ChatSession)
    (op : MessageOp) (h : ∀ c ∈ sessions, 0 ≤ c.message_count) :
    ∀ c ∈ update_chat_session_stats now sessions op, 0 ≤ c.message_count := by
  intro c hc
  cases op with
  | ins sid t =>
    simp only [update_chat_session_stats, List.mem_map] at hc
    obtain ⟨c0, hc0, rfl⟩ := hc
    by_cases hid : c0.id = sid
    · simp only [if_pos hid]
      have := h c0 hc0
      omega
    · simp only [if_neg hid]
      exact h c0 hc0
  | del sid =>
    simp only [update_chat_session_stats, List.mem_map] at hc
    obtain ⟨c0, hc0, rfl⟩ := hc
    by_cases hid : c0.id = sid
    · simp only [if_pos hid]
      exact le_max_left 0 _
    · simp only [if_neg hid]
      exact h c0 hc0

lemma chunk_step_nonneg (now : Int) (docs : List DocumentRow)
    (op : ChunkOp) (h : ∀ d ∈ docs, 0 ≤ d.total_chunks) :
    ∀ d ∈ update_document_chunk_count now docs op, 0 ≤ d.total_chunks := by
  intro d hd
  cases op with
  | ins did =>
    simp only [update_document_chunk_count, List.mem_map] at hd
    obtain ⟨d0, hd0, rfl⟩ := hd
    by_cases hid : d0.id = did
    · simp only [if_pos hid]
      have := h d0 hd0
      omega
    · simp only [if_neg hid]
      exact h d0 hd0
  | del did =>
    simp only [update_document_chunk_count, List.mem_map] at hd
    obtain ⟨d0, hd0, rfl⟩ := hd
    by_cases hid : d0.id = did
    · simp only [if_pos hid]
      exact le_max_left 0 _
    · simp only [if_neg hid]
      exact h d0 hd0

lemma runMessageOps_nonneg (now : Int) : ∀ (ops : List MessageOp)
    (sessions : List ChatSession),
    (∀ c ∈ sessions, 0 ≤ c.message_count) →
    ∀ c ∈ runMessageOps now sessions ops, 0 ≤ c.message_count := by
  intro ops
  induction ops with
  | nil =>
    intro sessions h
    simpa [runMessageOps] using h
  | cons op ops ih =>
    intro sessions h
    have hstep := msg_step_nonneg now sessions op h
    simpa [runMessageOps, List.foldl_cons] using
      ih (update_chat_session_stats now sessions op) hstep

lemma runChunkOps_nonneg (now : Int) : ∀ (ops : List ChunkOp)
    (docs : List DocumentRow),
    (∀ d ∈ docs, 0 ≤ d.total_chunks) →
    ∀ d ∈ runChunkOps now docs ops, 0 ≤ d.total_chunks := by
  intro ops
  induction ops with
  | nil =>
    intro docs h
    simpa [runChunkOps] using h
  | cons op ops ih =>
    intro docs h
    have hstep := chunk_step_nonneg now docs op h
    simpa [runChunkOps, List.foldl_cons] using
      ih (update_document_chunk_count now docs op) hstep

/-- C9: the counter triggers keep message_count and total_chunks non-negative.
On the owning row an insert adds exactly one and a delete subtracts one
clamped at zero by GREATEST, and therefore no sequence of insert and delete
events can drive either counter below zero when it starts non-negative. -/
theorem C9_counters : ∀ (now : Int) (sessions : List ChatSession)
    (docs : List DocumentRow) (mops : List MessageOp) (cops : List ChunkOp)
    (sid : String) (t : Int),
    ((∀ c ∈ sessions, 0 ≤ c.message_count) →
      ∀ c ∈ runMessageOps now sessions mops, 0 ≤ c.message_count) ∧
    ((∀ d ∈ docs, 0 ≤ d.total_chunks) →
      ∀ d ∈ runChunkOps now docs cops, 0 ≤ d.total_chunks) ∧
    (∀ c : ChatSession, c.id = sid →
      ∀ c2 ∈ update_chat_session_stats now [c] (MessageOp.ins sid t),
        c2.message_count = c.message_count + 1) ∧
    (∀ c : ChatSession, c.id = sid →
      ∀ c2 ∈ update_chat_session_stats now [c] (MessageOp.del sid),
        c2.message_count = max 0 (c.message_count - 1)) := by
  intro now sessions docs mops cops sid t
  refine ⟨runMessageOps_nonneg now mops sessions,
          runChunkOps_nonneg now cops docs, ?_, ?_⟩
  · intro c hcid c2 hc2
    simp only [update_chat_session_stats, List.mem_map, List.mem_singleton]
      at hc2
    obtain ⟨c0, rfl, rfl⟩ := hc2
    simp [if_pos hcid]
  · intro c hcid c2 hc2
    simp only [update_chat_session_stats, List.mem_map, List.mem_singleton]
      at hc2
    obtain ⟨c0, rfl, rfl⟩ := hc2
    simp [if_pos hcid]

/-- Witness for C9_counters: two deletes on an empty session clamp at zero
instead of going negative, a subsequent insert lands at one; an insert and two
deletes on a document leave zero chunks. -/
theorem C9_counters_witness :
    0 ≤ (ChatSession.mk "s1" 1 (some 3) 9).message_count ∧
    0 ≤ (DocumentRow.mk "d1" 0 9).total_chunks ∧
    (ChatSession.mk "s1" 6 (some 3) 9).message_count =
      (ChatSession.mk "s1" 5 none 0).message_count + 1 :=
  ⟨(C9_counters 9 [ChatSession.mk "s1" 0 none 0] [DocumentRow.mk "d1" 0 0]
      [MessageOp.del "s1", MessageOp.del "s1", MessageOp.ins "s1" 3]
      [ChunkOp.ins "d1", ChunkOp.del "d1", ChunkOp.del "d1"] "s1" 3).1
      (by decide) (ChatSession.mk "s1" 1 (some 3) 9) (by decide),
   (C9_counters 9 [ChatSession.mk "s1" 0 none 0] [DocumentRow.mk "d1" 0 0]
      [MessageOp.del "s1", MessageOp.del "s1", MessageOp.ins "s1" 3]
      [ChunkOp.ins "d1", ChunkOp.del "d1", ChunkOp.del "d1"] "s1" 3).2.1
      (by decide) (DocumentRow.mk "d1" 0 9) (by decide),
   (C9_counters 9 [ChatSession.mk "s1" 0 none 0] [DocumentRow.mk "d1" 0 0]
      [MessageOp.del "s1", MessageOp.del "s1", MessageOp.ins "s1" 3]
      [ChunkOp.ins "d1", ChunkOp.del "d1", ChunkOp.del "d1"] "s1" 3).2.2.1
      (ChatSession.mk "s1" 5 none 0) rfl (ChatSession.mk "s1" 6 (some 3) 9)
      (by decide)⟩
lemma handleAnalyze_hit (st : DashState) (uid : String)
    (row : ResumeAnalysisRow)
    (provider : String → String → List String → Except String AnalysisResult)
    (h1 : ¬ jsTrim st.resumeText = "")
    (h2 : st.selectedAnalysisTypes.contains "job_match_analysis" = true)
    (h3 : ¬ jsTrim st.jobDescription = "") :
    handleAnalyze st (some uid) { data := some row, error := none } provider =
      { state := { st with usedCachedResult := true,
                           analysisResult := some (cachedResultOf row),
                           currentStep := 4 },
        errorMsg := none, hashesComputed := true, lookupPerformed := true,
        providerCalled := false, providerTypes := none, insertedRow := none } := by
  have hmem : "job_match_analysis" ∈ st.selectedAnalysisTypes := by
    simpa using h2
  simp [handleAnalyze, h1, hmem, h3]

lemma handleAnalyze_fresh_jd (st : DashState) (uid : String)
    (reply : LookupReply)
    (provider : String → String → List String → Except String AnalysisResult)
    (h1 : ¬ jsTrim st.resumeText = "")
    (h2 : st.selectedAnalysisTypes.contains "job_match_analysis" = true)
    (h3 : ¬ jsTrim st.jobDescription = "")
    (hm : reply.data = none) :
    handleAnalyze st (some uid) reply provider =
      freshAnalyze { st with usedCachedResult := false } uid true true
        provider := by
  have hmem : "job_match_analysis" ∈ st.selectedAnalysisTypes := by
    simpa using h2
  cases hre : reply.error with
  | none => simp [handleAnalyze, h1, hmem, h3, hre, hm]
  | some e => simp [handleAnalyze, h1, hmem, h3, hre, hm]

lemma handleAnalyze_nojd (st : DashState) (uid : String)
    (reply : LookupReply)
    (provider : String → String → List String → Except String AnalysisResult)
    (h1 : ¬ jsTrim st.resumeText = "")
    (h2 : st.selectedAnalysisTypes.contains "job_match_analysis" = false) :
    handleAnalyze st (some uid) reply provider =
      freshAnalyze { st with usedCachedResult := false } uid false false
        provider := by
  have hnot : "job_match_analysis" ∉ st.selectedAnalysisTypes := by
    simpa using h2
  simp [handleAnalyze, h1, hnot]

lemma freshAnalyze_ok (st1 : DashState) (uid : String) (needsJD hashed : Bool)
    (provider : String → String → List String → Except String AnalysisResult)
    (r : AnalysisResult)
    (hp : provider st1.resumeText (if needsJD then st1.jobDescription else "")
      (passedTypes st1.selectedAnalysisTypes) = Except.ok r) :
    freshAnalyze st1 uid needsJD hashed provider =
      { state := { st1 with analysisResult := some r, currentStep := 4 },
        errorMsg := none, hashesComputed := hashed, lookupPerformed := hashed,
        providerCalled := true,
        providerTypes := some (passedTypes st1.selectedAnalysisTypes),
        insertedRow :=
          if needsJD then
            some { user_id := uid,
                   compatibility_score := getNumericScore r.match_score,
                   keyword_matches := (r.job_keywords_detected.filter
                     (fun k => k.status = "Present")).map (fun k => k.keyword),
                   experience_gaps := r.gaps_and_suggestions,
                   skill_gaps := [],
                   resume_hash := generateSHA256Hash st1.resumeText,
                   job_description_hash :=
                     generateSHA256Hash st1.jobDescription,
                   analysis_details := some r }
          else none } := by
  unfold freshAnalyze
  rw [hp]

/-- C3: when an analysis record is already stored under the fingerprint pair
of the submitted texts for this user, a repeat analyze call returns the stored
result, marks the state cache-derived, does not invoke the provider, and
leaves the table unchanged.  The fingerprints come from the spec-modelled
deterministic digest. -/
theorem C3_cache_idempotence : ∀ (rows : List ResumeAnalysisRow)
    (st : DashState) (uid : String)
    (provider : String → String → List String → Except String AnalysisResult)
    (fails : Bool) (row : ResumeAnalysisRow) (r : AnalysisResult),
    ¬ jsTrim st.resumeText = "" →
    st.selectedAnalysisTypes.contains "job_match_analysis" = true →
    ¬ jsTrim st.jobDescription = "" →
    rows.find? (fun q => q.user_id = uid &&
      q.resume_hash = generateSHA256Hash st.resumeText &&
      q.job_description_hash = generateSHA256Hash st.jobDescription) =
        some row →
    row.analysis_details = some r →
    (runAnalyze rows st (some uid) provider fails).1.state.analysisResult =
      some r ∧
    (runAnalyze rows st (some uid) provider fails).1.state.usedCachedResult =
      true ∧
    (runAnalyze rows st (some uid) provider fails).1.providerCalled = false ∧
    (runAnalyze rows st (some uid) provider fails).2 = rows := by
  intro rows st uid provider fails row r h1 h2 h3 hfind hdet
  have hreply : lookupFromDb rows uid (generateSHA256Hash st.resumeText)
      (generateSHA256Hash st.jobDescription) =
      { data := some row, error := none } := by
    unfold lookupFromDb
    rw [hfind]
  have hh := handleAnalyze_hit st uid row provider h1 h2 h3
  unfold runAnalyze
  simp only [h2, if_true, hreply, hh, cachedResultOf, hdet]
  exact ⟨trivial, trivial, trivial, trivial⟩

/-- A concrete provider result used by the concrete scenarios. -/
def exResult : AnalysisResult :=
  { match_summary := "good fit", match_score := "72/100",
    job_keywords_detected := [{ keyword := "sql", status := "Present" },
                              { keyword := "go", status := "Missing" }],
    gaps_and_suggestions := ["add metrics"] }

/-- A provider oracle that always succeeds with exResult. -/
def okProvider : String → String → List String → Except String AnalysisResult :=
  fun _ _ _ => Except.ok exResult

/-- A concrete dashboard state with both texts filled in and the core
job-match analysis selected. -/
def exState : DashState :=
  { currentStep := 3, resumeText := "A", jobDescription := "B",
    selectedAnalysisTypes := ["job_match_analysis"], analysisResult := none,
    usedCachedResult := false }

/-- The stored analysis record of a previous identical submission of
exState by user u1. -/
def exRow : ResumeAnalysisRow :=
  { user_id := "u1", compatibility_score := 72, keyword_matches := ["sql"],
    experience_gaps := ["add metrics"], skill_gaps := [],
    resume_hash := generateSHA256Hash "A",
    job_description_hash := generateSHA256Hash "B",
    analysis_details := some exResult }

/-- Witness for C3_cache_idempotence: resubmitting the identical texts over a
table holding exRow serves the stored result without a provider call. -/
theorem C3_cache_idempotence_witness :
    (runAnalyze [exRow] exState (some "u1") okProvider false).1.state.analysisResult
      = some exResult ∧
    (runAnalyze [exRow] exState (some "u1") okProvider false).1.state.usedCachedResult
      = true ∧
    (runAnalyze [exRow] exState (some "u1") okProvider false).1.providerCalled
      = false ∧
    (runAnalyze [exRow] exState (some "u1") okProvider false).2 = [exRow] :=
  C3_cache_idempotence [exRow] exState "u1" okProvider false exRow exResult
    (by decide) (by decide) (by decide) (by decide) (by decide)

/-- A lookup reply whose error is a server failure, not the not-found code. -/
def failedReply : LookupReply :=
  { data := none, error := some { code := "500" } }

/-- C4 counterexample: a cache-lookup failure whose code is not the not-found
code PGRST116 is not surfaced: the call proceeds to a fresh provider
invocation with no error banner, contradicting the claim that only the
not-found outcome proceeds silently. -/
theorem C4_counterexample :
    failedReply.error ≠ some { code := "PGRST116" } ∧
    (handleAnalyze exState (some "u1") failedReply okProvider).errorMsg =
      none ∧
    (handleAnalyze exState (some "u1") failedReply okProvider).providerCalled =
      true := by
  decide

/-- C4 amended: handleAnalyze checks only whether the lookup reply has any
error at all; every lookup failure, whatever its cause, is treated exactly
like a cache miss: the call silently proceeds to the fresh provider
invocation, no lookup error is surfaced, and a successful provider call ends
with no error banner and the fresh result. -/
theorem C4_lookup_error_is_miss : ∀ (st : DashState) (uid : String)
    (e : QueryFailure)
    (provider : String → String → List String → Except String AnalysisResult)
    (r : AnalysisResult),
    ¬ jsTrim st.resumeText = "" →
    st.selectedAnalysisTypes.contains "job_match_analysis" = true →
    ¬ jsTrim st.jobDescription = "" →
    provider st.resumeText st.jobDescription
      (passedTypes st.selectedAnalysisTypes) = Except.ok r →
    (handleAnalyze st (some uid) { data := none, error := some e }
      provider).providerCalled = true ∧
    (handleAnalyze st (some uid) { data := none, error := some e }
      provider).errorMsg = none ∧
    (handleAnalyze st (some uid) { data := none, error := some e }
      provider).state.analysisResult = some r := by
  intro st uid e provider r h1 h2 h3 hp
  have hfresh := handleAnalyze_fresh_jd st uid
    { data := none, error := some e } provider h1 h2 h3 rfl
  have hok := freshAnalyze_ok { st with usedCachedResult := false } uid
    true true provider r hp
  rw [hfresh, hok]
  exact ⟨rfl, rfl, rfl⟩

/-- Witness for C4_lookup_error_is_miss at the concrete failing reply. -/
theorem C4_lookup_error_is_miss_witness :
    (handleAnalyze exState (some "u1") failedReply okProvider).providerCalled
      = true ∧
    (handleAnalyze exState (some "u1") failedReply okProvider).errorMsg
      = none ∧
    (handleAnalyze exState (some "u1") failedReply
      okProvider).state.analysisResult = some exResult :=
  C4_lookup_error_is_miss exState "u1" { code := "500" } okProvider exResult
    (by decide) (by decide) (by decide) rfl

/-- Modelled per the claim for comparison: the type filter the claim asserts,
namely the requested types that the tier resolved for the user permits via the
feature gate user_has_feature_access of section 4.2. -/
def specPermittedTypes (db : Db) (now : Int) (uid : String)
    (requested : List String) : List String :=
  requested.filter (fun t => user_has_feature_access db now uid t)

/-- An administrator with no subscriptions. -/
def c6AdminDb : Db :=
  { users := [{ id := "adm", role := "admin" }], plans := seedPlans,
    subscriptions := [] }

/-- A state requesting the core analysis plus the premium skills-gap
assessment. -/
def c6State : DashState :=
  { currentStep := 3, resumeText := "A", jobDescription := "B",
    selectedAnalysisTypes := ["job_match_analysis", "skills_gap_assessment"],
    analysisResult := none, usedCachedResult := false }

/-- The not-found reply of an empty cache. -/
def notFoundReply : LookupReply :=
  { data := none, error := some { code := "PGRST116" } }

/-- C6 counterexample: for an administrator the feature gate of section 4.2
permits every requested type, yet handleAnalyze passes the empty list to the
provider: the filter never consults the tier (premium types are dropped for
everyone) and job_match_analysis itself is removed from the argument list. -/
theorem C6_counterexample :
    specPermittedTypes c6AdminDb 0 "adm" c6State.selectedAnalysisTypes =
      ["job_match_analysis", "skills_gap_assessment"] ∧
    (handleAnalyze c6State (some "adm") notFoundReply
      okProvider).providerTypes = some [] ∧
    (handleAnalyze c6State (some "adm") notFoundReply
      okProvider).providerTypes ≠
      some (specPermittedTypes c6AdminDb 0 "adm"
        c6State.selectedAnalysisTypes) := by
  decide

/-- C6 amended: the list handed to the provider is tier-independent: it is
the requested list minus the statically premium-flagged types minus
job_match_analysis itself, for every user; in particular a premium type such
as skills_gap_assessment is never in the list, so the fresh-free-user scenario
of the claim behaves as described. -/
theorem C6_requested_type_filter : ∀ (st : DashState) (uid : String)
    (reply : LookupReply)
    (provider : String → String → List String → Except String AnalysisResult),
    ¬ jsTrim st.resumeText = "" →
    st.selectedAnalysisTypes.contains "job_match_analysis" = true →
    ¬ jsTrim st.jobDescription = "" →
    reply.data = none →
    (handleAnalyze st (some uid) reply provider).providerTypes =
      some (passedTypes st.selectedAnalysisTypes) ∧
    "skills_gap_assessment" ∉ passedTypes st.selectedAnalysisTypes ∧
    "job_match_analysis" ∉ passedTypes st.selectedAnalysisTypes := by
  intro st uid reply provider h1 h2 h3 hm
  have hfresh := handleAnalyze_fresh_jd st uid reply provider h1 h2 h3 hm
  refine ⟨?_, ?_, ?_⟩
  · rw [hfresh]
    unfold freshAnalyze
    cases hp : provider st.resumeText
        (if (true : Bool) then st.jobDescription else "")
        (passedTypes st.selectedAnalysisTypes) with
    | error m => simp [hp]
    | ok r => simp [hp]
  · intro hmem
    unfold passedTypes at hmem
    rw [List.mem_filter] at hmem
    obtain ⟨hmem1, _⟩ := hmem
    rw [List.mem_filter] at hmem1
    obtain ⟨_, hprem⟩ := hmem1
    have hsg : isPremiumType "skills_gap_assessment" = true := by decide
    rw [hsg] at hprem
    simp at hprem
  · intro hmem
    unfold passedTypes at hmem
    rw [List.mem_filter] at hmem
    obtain ⟨_, hneq⟩ := hmem
    simp at hneq

/-- The fresh-free-user scenario state: only the core job-match analysis
requested. -/
def c6FreeState : DashState :=
  { currentStep := 3, resumeText := "A", jobDescription := "B",
    selectedAnalysisTypes := ["job_match_analysis"], analysisResult := none,
    usedCachedResult := false }

/-- Witness for C6_requested_type_filter at the fresh-free-user scenario. -/
theorem C6_requested_type_filter_witness :
    (handleAnalyze c6FreeState (some "u1") notFoundReply
      okProvider).providerTypes =
      some (passedTypes c6FreeState.selectedAnalysisTypes) ∧
    "skills_gap_assessment" ∉ passedTypes c6FreeState.selectedAnalysisTypes :=
  ⟨(C6_requested_type_filter c6FreeState "u1" notFoundReply okProvider
      (by decide) (by decide) (by decide) rfl).1,
   (C6_requested_type_filter c6FreeState "u1" notFoundReply okProvider
      (by decide) (by decide) (by decide) rfl).2.1⟩

/-- C7 counterexample: on a cache miss with a successful provider call and a
failing insert, the computed result is shown (analysisResult set, table left
unchanged) but no persistence error is surfaced: the error banner stays empty
because handleAnalyze never examines the insert reply, contradicting the
surfacing half of the claim. -/
theorem C7_counterexample :
    (runAnalyze [] exState (some "u1") okProvider true).1.errorMsg = none ∧
    (runAnalyze [] exState (some "u1") okProvider true).1.state.analysisResult
      = some exResult ∧
    (runAnalyze [] exState (some "u1") okProvider true).1.insertedRow ≠
      none ∧
    (runAnalyze [] exState (some "u1") okProvider true).2 = [] := by
  decide

/-- C7 amended: when the provider succeeds and the subsequent insert fails,
the computed result is still shown, the wizard advances to step 4 and the
table is unchanged, but the persistence error is silently ignored rather than
surfaced: the error banner is empty. -/
theorem C7_insert_failure : ∀ (rows : List ResumeAnalysisRow)
    (st : DashState) (uid : String)
    (provider : String → String → List String → Except String AnalysisResult)
    (r : AnalysisResult),
    ¬ jsTrim st.resumeText = "" →
    st.selectedAnalysisTypes.contains "job_match_analysis" = true →
    ¬ jsTrim st.jobDescription = "" →
    rows.find? (fun q => q.user_id = uid &&
      q.resume_hash = generateSHA256Hash st.resumeText &&
      q.job_description_hash = generateSHA256Hash st.jobDescription) = none →
    provider st.resumeText st.jobDescription
      (passedTypes st.selectedAnalysisTypes) = Except.ok r →
    (runAnalyze rows st (some uid) provider true).1.state.analysisResult =
      some r ∧
    (runAnalyze rows st (some uid) provider true).1.state.currentStep = 4 ∧
    (runAnalyze rows st (some uid) provider true).1.errorMsg = none ∧
    (runAnalyze rows st (some uid) provider true).2 = rows := by
  intro rows st uid provider r h1 h2 h3 hfind hp
  have hreply : lookupFromDb rows uid (generateSHA256Hash st.resumeText)
      (generateSHA256Hash st.jobDescription) =
      { data := none, error := some { code := "PGRST116" } } := by
    unfold lookupFromDb
    rw [hfind]
  have hfresh := handleAnalyze_fresh_jd st uid
    { data := none, error := some { code := "PGRST116" } } provider h1 h2 h3 rfl
  have hok := freshAnalyze_ok { st with usedCachedResult := false } uid
    true true provider r hp
  unfold runAnalyze
  simp only [h2, if_true, hreply, hfresh, hok]
  exact ⟨trivial, trivial, trivial, trivial⟩

/-- Witness for C7_insert_failure at the concrete scenario with an empty
table and a failing insert. -/
theorem C7_insert_failure_witness :
    (runAnalyze [] exState (some "u1") okProvider true).1.state.analysisResult
      = some exResult ∧
    (runAnalyze [] exState (some "u1") okProvider true).1.state.currentStep
      = 4 ∧
    (runAnalyze [] exState (some "u1") okProvider true).1.errorMsg = none ∧
    (runAnalyze [] exState (some "u1") okProvider true).2 = [] :=
  C7_insert_failure [] exState "u1" okProvider exResult
    (by decide) (by decide) (by decide) rfl rfl

/-- C10: when job_match_analysis is not among the selected types, no hashes
are computed, no cache lookup runs, no record is inserted, the table is left
unchanged, and the provider is invoked unconditionally, so identical
resubmissions always re-invoke it. -/
theorem C10_no_cache_without_job_match : ∀ (rows : List ResumeAnalysisRow)
    (st : DashState) (uid : String)
    (provider : String → String → List String → Except String AnalysisResult)
    (fails : Bool),
    ¬ jsTrim st.resumeText = "" →
    st.selectedAnalysisTypes.contains "job_match_analysis" = false →
    (runAnalyze rows st (some uid) provider fails).1.hashesComputed = false ∧
    (runAnalyze rows st (some uid) provider fails).1.lookupPerformed = false ∧
    (runAnalyze rows st (some uid) provider fails).1.insertedRow = none ∧
    (runAnalyze rows st (some uid) provider fails).1.providerCalled = true ∧
    (runAnalyze rows st (some uid) provider fails).2 = rows := by
  intro rows st uid provider fails h1 h2
  have hfresh := handleAnalyze_nojd st uid { data := none, error := none }
    provider h1 h2
  unfold runAnalyze
  simp only [h2, Bool.false_eq_true, if_false, hfresh]
  unfold freshAnalyze
  cases hp : provider st.resumeText "" (passedTypes st.selectedAnalysisTypes)
      with
  | error m => simp [hp]
  | ok r => simp [hp]

/-- A state selecting only a non-core analysis type. -/
def c10State : DashState :=
  { currentStep := 2, resumeText := "A", jobDescription := "",
    selectedAnalysisTypes := ["ats_compatibility"], analysisResult := none,
    usedCachedResult := false }

/-- Witness for C10_no_cache_without_job_match: even over a table holding a
matching record for the texts, nothing is read or written and the provider
runs. -/
theorem C10_no_cache_without_job_match_witness :
    (runAnalyze [exRow] c10State (some "u1") okProvider
      false).1.hashesComputed = false ∧
    (runAnalyze [exRow] c10State (some "u1") okProvider
      false).1.insertedRow = none ∧
    (runAnalyze [exRow] c10State (some "u1") okProvider false).2 = [exRow] :=
  ⟨(C10_no_cache_without_job_match [exRow] c10State "u1" okProvider false
      (by decide) (by decide)).1,
   (C10_no_cache_without_job_match [exRow] c10State "u1" okProvider false
      (by decide) (by decide)).2.2.1,
   (C10_no_cache_without_job_match [exRow] c10State "u1" okProvider false
      (by decide) (by decide)).2.2.2.2⟩
